import Mathlib

/-!
Shallow embedding of the quality scoring engine of `src/app.py`
(lines 109-179): the app reads a CSV into a pandas DataFrame and computes
four data-quality dimension scores, a weighted composite, and
threshold-triggered textual observations.

Modelling conventions:
* A pandas cell is a `Cell`: an integer, a float (modelled as an exact
  rational), a string, or the missing marker NaN.
* A pandas column carries its dtype through the flag `numeric`
  (dtype int64 or float64 versus object).
* IEEE floating point arithmetic is modelled by exact rational
  arithmetic; Python `round(x, 2)` is modelled as decimal
  round-half-to-even on rationals (`pyRound2`).
* A float NaN - produced by `0/0` on a numpy scalar, or by a pandas mean
  over an empty series - is modelled as `none : Option Rat`; every ordered
  comparison against NaN is false, matching the IEEE semantics Python uses
  at the observation thresholds.
* The Python `ZeroDivisionError` raised by the plain-integer `0/0` at
  line 123 when the frame has no columns is modelled with `Except`.
* `DataFrame.wf` captures the shape of frames produced by `pd.read_csv`:
  all columns have the same length; a numeric column is either int64
  (all integers, no NaN) or float64 (floats and NaN only); an object
  column holds nonempty strings and NaN, and is object only because at
  least one string is present (an all-NaN column would be float64, and
  an empty CSV field is read as NaN, never as an empty string).
-/

/-- One cell of the data frame: integer, float, string, or missing (NaN). -/
inductive Cell
  | intVal : Int → Cell
  | floatVal : Rat → Cell
  | strVal : String → Cell
  | missing : Cell
deriving DecidableEq, Repr

/-- One named column of the frame. The name itself never matters to the
engine, so it is omitted; `numeric` records whether the pandas dtype is
int64 or float64 (the test at line 118 of the source). -/
structure Column where
  numeric : Bool
  cells : List Cell
deriving DecidableEq, Repr

/-- The data frame: an ordered sequence of columns. -/
structure DataFrame where
  cols : List Column
deriving DecidableEq, Repr

/-- Number of rows, `len(df)`: the length of the (shared) column index;
zero when there are no columns. -/
def DataFrame.nRows (df : DataFrame) : Nat :=
  match df.cols with
  | [] => 0
  | c :: _ => c.cells.length

/-- Number of columns, `len(df.columns)`. -/
def DataFrame.nCols (df : DataFrame) : Nat := df.cols.length

/-- Whether a cell is the missing marker, `pd.isnull`. -/
def Cell.isMissing : Cell → Bool
  | .missing => true
  | _ => false

def Cell.isIntVal : Cell → Bool
  | .intVal _ => true
  | _ => false

def Cell.isFloatVal : Cell → Bool
  | .floatVal _ => true
  | _ => false

def Cell.isStrVal : Cell → Bool
  | .strVal _ => true
  | _ => false

/-- A cell admissible in an object column read from CSV: a nonempty
string, or NaN. -/
def Cell.textOk : Cell → Bool
  | .strVal s => decide (0 < s.length)
  | .missing => true
  | _ => false

/-- Well-formedness of a single column, as produced by `pd.read_csv`:
a numeric column is int64 (all integers) or float64 (floats or NaN);
an object column holds nonempty strings or NaN and, when nonempty,
contains at least one string. -/
def Column.wf (c : Column) : Bool :=
  if c.numeric then
    c.cells.all Cell.isIntVal || c.cells.all (fun x => x.isFloatVal || x.isMissing)
  else
    c.cells.all Cell.textOk && (c.cells.isEmpty || c.cells.any Cell.isStrVal)

/-- Well-formedness of the frame: every column has the row count of the
frame and is itself well formed. -/
def DataFrame.wf (df : DataFrame) : Bool :=
  df.cols.all (fun c => c.cells.length == df.nRows && c.wf)

/-- Round half to even on an exact rational, the semantics of the Python
builtin `round` (source line 127 rounds the composite). -/
def roundHalfEven (q : Rat) : Int :=
  let f := ⌊q⌋
  let r := q - (f : Rat)
  if r < 1/2 then f
  else if 1/2 < r then f + 1
  else if f % 2 = 0 then f else f + 1

/-- Python `round(q, 2)`. -/
def pyRound2 (q : Rat) : Rat := (roundHalfEven (q * 100) : Rat) / 100

/-- The per-column missing rate `df.isnull().mean()` (source line 112):
the pandas mean of an empty column is NaN. -/
def colMissingRate (c : Column) : Option Rat :=
  if c.cells.length = 0 then none
  else some ((c.cells.countP Cell.isMissing : Rat) / (c.cells.length : Rat))

/-- The pandas mean of a series that may contain NaN entries: NaN entries
are skipped (skipna default); the mean of nothing is NaN. -/
def meanSkipna (xs : List (Option Rat)) : Option Rat :=
  let vs := xs.filterMap id
  if vs.length = 0 then none
  else some (vs.sum / (vs.length : Rat))

/-- Source line 112: `completeness = (1 - df.isnull().mean().mean()) * 100`. -/
def completeness (df : DataFrame) : Option Rat :=
  (meanSkipna (df.cols.map colMissingRate)).map (fun m => (1 - m) * 100)

/-- Row `i` of the frame as the tuple of its cells in column order, the
tuple `df.duplicated()` hashes. -/
def DataFrame.row (df : DataFrame) (i : Nat) : List Cell :=
  df.cols.map (fun c => c.cells.getD i Cell.missing)

/-- The value `df.duplicated().sum()` (source line 113): the number of rows
equal, as a full tuple, to some earlier row; pandas treats NaN as equal to
NaN here, which structural equality of `Cell` also does. -/
def dupCount (df : DataFrame) : Nat :=
  (List.range df.nRows).countP (fun i =>
    (List.range i).any (fun j => decide (df.row j = df.row i)))

/-- Source line 113: `uniqueness = (1 - df.duplicated().sum() / len(df)) * 100`.
On a zero-row frame the numpy scalar division `0/0` yields NaN (with a
runtime warning), not an exception. -/
def uniqueness (df : DataFrame) : Option Rat :=
  if df.nRows = 0 then none
  else some ((1 - (dupCount df : Rat) / (df.nRows : Rat)) * 100)

/-- The comparison `value >= 0` of source line 119: false for NaN, and an
object column never reaches this branch. -/
def Cell.geZero : Cell → Bool
  | .intVal n => decide (0 ≤ n)
  | .floatVal q => decide (0 ≤ q)
  | _ => false

/-- The string Python renders for a cell under `astype(str)` (source
line 121): NaN renders as the three-character string nan; ints and floats
render as their decimal notations, which are never empty. Only the length
of this string is ever consumed, through `.str.len().gt(0)`. -/
def Cell.pyStr : Cell → String
  | .strVal s => s
  | .intVal n => toString n
  | .floatVal q => toString q
  | .missing => "nan"

/-- The contribution of one column to `valid_count` (source lines 118-121):
a numeric column counts cells that compare `>= 0`; any other column counts
cells whose string form is nonempty. -/
def colValidCount (c : Column) : Nat :=
  if c.numeric then c.cells.countP Cell.geZero
  else c.cells.countP (fun x => decide (0 < x.pyStr.length))

/-- The per-cell validity rule of the loop at lines 115-121, indexed by the
dtype of the enclosing column. -/
def cellValid (numeric : Bool) (x : Cell) : Bool :=
  if numeric then x.geZero else decide (0 < x.pyStr.length)

/-- A distinct error value for the Python exception the engine can raise. -/
inductive PyErr
  | zeroDivisionError
deriving DecidableEq, Repr

deriving instance DecidableEq for Except

/-- Source lines 115-123: the loop accumulates `total_count = nCols * nRows`
and the per-column valid counts, then divides. With zero columns both
accumulators are plain Python ints and `0/0` raises `ZeroDivisionError`;
with columns but zero rows `valid_count` is a numpy scalar and `0/0` is
NaN. -/
def validity (df : DataFrame) : Except PyErr (Option Rat) :=
  if df.nCols = 0 then .error .zeroDivisionError
  else if df.nRows = 0 then .ok none
  else .ok (some (((df.cols.map colValidCount).sum : Rat)
      / ((df.nCols * df.nRows : Nat) : Rat) * 100))

/-- The runtime type classification `type(cell)` as seen through
`df[col].map(type)` (source line 124). Every value stored in an int64
column is a `numpy.int64` and every value stored in a float64 column
(NaN included) is a `numpy.float64`, so within a numeric column the
classification is one constant; in an object column each cell keeps its
Python type, and NaN is a float. -/
inductive PyType
  | npNumeric
  | pyInt
  | pyFloat
  | pyStr
deriving DecidableEq, Repr

def cellType (numeric : Bool) : Cell → PyType
  | .intVal _ => if numeric then .npNumeric else .pyInt
  | .floatVal _ => if numeric then .npNumeric else .pyFloat
  | .missing => if numeric then .npNumeric else .pyFloat
  | .strVal _ => .pyStr

/-- The value `df[col].map(type).nunique()` of source line 124: the number
of distinct runtime types among the cells of the column (the mapped series
holds type objects, never NaN, so the default dropna of nunique drops
nothing). -/
def colTypeNunique (c : Column) : Nat :=
  ((c.cells.map (cellType c.numeric)).dedup).length

/-- Source line 124: the number of columns whose cells share exactly one
runtime type. An empty column has nunique zero and is counted
inconsistent. -/
def consistentColCount (df : DataFrame) : Nat :=
  df.cols.countP (fun c => colTypeNunique c == 1)

/-- Source lines 124-125: `consistency = (count / len(df.columns)) * 100`;
with zero columns the plain-integer `0/0` would raise, though line 123
raises first. -/
def consistency (df : DataFrame) : Except PyErr Rat :=
  if df.nCols = 0 then .error .zeroDivisionError
  else .ok ((consistentColCount df : Rat) / (df.nCols : Rat) * 100)

/-- Source lines 127-132: the composite
`dqs = round(0.3*completeness + 0.25*validity + 0.25*uniqueness + 0.2*consistency, 2)`.
Any NaN operand makes the sum NaN, and `round` of NaN is NaN. -/
def dqs (c u v : Option Rat) (k : Rat) : Option Rat :=
  match c, u, v with
  | some c, some u, some v =>
      some (pyRound2 (3/10 * c + 1/4 * v + 1/4 * u + 1/5 * k))
  | _, _, _ => none

/-- The output of the scoring block, lines 112-132. -/
structure Report where
  completeness : Option Rat
  uniqueness : Option Rat
  validity : Option Rat
  consistency : Rat
  dqs : Option Rat
deriving DecidableEq, Repr

/-- The whole scoring block in source order: lines 112 and 113 always
produce values (possibly NaN); line 123 is the first statement that can
raise, then line 125. -/
def score (df : DataFrame) : Except PyErr Report :=
  match validity df with
  | .error e => .error e
  | .ok v =>
    match consistency df with
    | .error e => .error e
    | .ok k =>
      .ok ⟨completeness df, uniqueness df, v, k,
           dqs (completeness df) (uniqueness df) v k⟩

/-- A Python comparison `x < b` where `x` may be NaN: false on NaN. -/
def optLtB (x : Option Rat) (b : Rat) : Bool :=
  match x with
  | some q => decide (q < b)
  | none => false

/-- A Python comparison `x >= b` where `x` may be NaN: false on NaN. -/
def optGeB (x : Option Rat) (b : Rat) : Bool :=
  match x with
  | some q => decide (b ≤ q)
  | none => false

/-- Source lines 173-179: the observation messages emitted on the
dashboard, in program order. -/
def Report.observations (r : Report) : List String :=
  (if optLtB r.completeness 80 then ["Missing values detected."] else []) ++
  (if optLtB r.uniqueness 90 then ["Duplicate records reduce uniqueness."] else []) ++
  (if optLtB r.validity 85 then ["Validation rule violations found."] else []) ++
  (if decide (r.consistency < 80) then ["Schema inconsistencies detected."] else []) ++
  (if optGeB r.dqs 80 then ["Overall data quality is good."] else [])

/-- Modelled from the spec (section 4.1, consistency): a column is
type-consistent when every NON-missing value in it shares a single runtime
type classification, missing cells being excluded from the check. This is
the claimed reading, kept separate from `colTypeNunique`, which is the
translation of the source. -/
def specTypeConsistent (c : Column) : Bool :=
  decide ((((c.cells.filter (fun x => !x.isMissing)).map (cellType c.numeric)).dedup).length ≤ 1)

/-- A concrete well-formed frame: two rows, an int64 column and a text
column. -/
def dfSmall : DataFrame :=
  ⟨[⟨true, [Cell.intVal 1, Cell.intVal 2]⟩,
    ⟨false, [Cell.strVal "a", Cell.strVal "b"]⟩]⟩

/-- A frame with one object column and zero rows, as read from a CSV that
has a header line and no data rows. -/
def dfZeroRows : DataFrame := ⟨[⟨false, []⟩]⟩

/-- A frame with a header of two columns and zero data rows. -/
def dfZeroRows2 : DataFrame := ⟨[⟨false, []⟩, ⟨false, []⟩]⟩

/-- The frame with no columns at all. -/
def dfZeroCols : DataFrame := ⟨[]⟩

/-- A frame whose single text column holds one string and one missing
value. -/
def dfTextNaN : DataFrame := ⟨[⟨false, [Cell.strVal "a", Cell.missing]⟩]⟩

example : score dfZeroRows =
    .ok ⟨none, none, none, 0, none⟩ := by
  norm_num [score, validity, consistency, completeness, uniqueness, dqs,
    meanSkipna, colMissingRate, consistentColCount, colTypeNunique, cellType,
    dfZeroRows, DataFrame.nCols, DataFrame.nRows]

example : score dfZeroCols = .error PyErr.zeroDivisionError := by
  norm_num [score, validity, consistency, dfZeroCols, DataFrame.nCols, DataFrame.nRows]

example : consistency dfTextNaN = .ok 0 := by
  norm_num [consistency, consistentColCount, colTypeNunique, cellType,
    dfTextNaN, DataFrame.nCols, List.countP, List.countP.go]
  decide

example : specTypeConsistent ⟨false, [Cell.strVal "a", Cell.missing]⟩ = true := by decide

example : dfSmall.wf = true := by decide

example :
    dupCount ⟨[⟨true, [Cell.intVal 1, Cell.intVal 1, Cell.intVal 2, Cell.intVal 1]⟩]⟩ = 2 := by
  decide

example : score dfSmall =
    .ok ⟨some 100, some 100, some 100, 100, some 100⟩ := by
  have hc : completeness dfSmall = some 100 := by
    norm_num [completeness, meanSkipna, colMissingRate, dfSmall,
      List.countP, List.countP.go, Cell.isMissing, List.filterMap]
  have hu : uniqueness dfSmall = some 100 := by
    norm_num [uniqueness, dupCount, DataFrame.row, dfSmall, DataFrame.nRows,
      List.range_succ, List.countP, List.countP.go]
  have hv : validity dfSmall = .ok (some 100) := by
    norm_num [validity, colValidCount, dfSmall, DataFrame.nCols, DataFrame.nRows,
      List.countP, List.countP.go, Cell.geZero, Cell.pyStr,
      show "a".length = 1 from rfl, show "b".length = 1 from rfl]
  have hk : consistency dfSmall = .ok 100 := by
    norm_num [consistency, consistentColCount, colTypeNunique, cellType,
      dfSmall, DataFrame.nCols, List.countP, List.countP.go]
  have hd : dqs (some 100) (some 100) (some 100) 100 = some 100 := by
    norm_num [dqs, pyRound2, roundHalfEven]
  simp [score, hc, hu, hv, hk, hd]

/-! Helper lemmas shared by several claim theorems. -/

/-- Unpacking frame well-formedness: every column has the row count of the
frame and satisfies the column invariant. -/
theorem DataFrame.wf_spec {df : DataFrame} (h : df.wf = true) :
    ∀ c ∈ df.cols, c.cells.length = df.nRows ∧ c.wf = true := by
  intro c hc
  have h1 := (List.all_eq_true.mp h) c hc
  rw [Bool.and_eq_true, beq_iff_eq] at h1
  exact h1

/-- If the frame has a row, it has a column. -/
theorem DataFrame.cols_ne_nil {df : DataFrame} (hr : 1 ≤ df.nRows) :
    df.cols ≠ [] := by
  intro hnil
  have h0 : df.nRows = 0 := by simp [DataFrame.nRows, hnil]
  omega

theorem filterMap_id_map_some {α β : Type} (g : α → β) (l : List α) :
    List.filterMap id (l.map (fun a => some (g a))) = l.map g := by
  induction l with
  | nil => rfl
  | cons a t ih => simp [List.filterMap_cons, ih]

theorem list_sum_nonneg_rat {l : List Rat} (h : ∀ x ∈ l, 0 ≤ x) : 0 ≤ l.sum := by
  induction l with
  | nil => simp
  | cons a t ih =>
      rw [List.sum_cons]
      have ha := h a (by simp)
      have ht := ih (fun x hx => h x (by simp [hx]))
      linarith

theorem list_sum_le_length_rat {l : List Rat} (h : ∀ x ∈ l, x ≤ 1) :
    l.sum ≤ (l.length : Rat) := by
  induction l with
  | nil => simp
  | cons a t ih =>
      rw [List.sum_cons, List.length_cons]
      have ha := h a (by simp)
      have ht := ih (fun x hx => h x (by simp [hx]))
      push_cast
      linarith

theorem sum_map_len_eq {l : List Column} {n : Nat}
    (h : ∀ c ∈ l, c.cells.length = n) :
    (l.map (fun c => c.cells.length)).sum = l.length * n := by
  induction l with
  | nil => simp
  | cons a t ih =>
      have ha := h a (by simp)
      have ht := ih (fun c hc => h c (by simp [hc]))
      simp [ha, ht, Nat.succ_mul]
      omega

theorem sum_map_le_sum_map {l : List Column} {f g : Column → Nat}
    (h : ∀ c ∈ l, f c ≤ g c) :
    (l.map f).sum ≤ (l.map g).sum := by
  induction l with
  | nil => simp
  | cons a t ih =>
      have ha := h a (by simp)
      have ht := ih (fun c hc => h c (by simp [hc]))
      simp only [List.map_cons, List.sum_cons]
      omega

/-- The Python round never goes below the floor. -/
theorem roundHalfEven_nonneg {q : Rat} (h : 0 ≤ q) : 0 ≤ roundHalfEven q := by
  have hf : 0 ≤ ⌊q⌋ := Int.floor_nonneg.mpr h
  unfold roundHalfEven
  dsimp only
  split
  · exact hf
  · split
    · omega
    · split <;> omega

/-- The Python round never exceeds an integer upper bound of its argument. -/
theorem roundHalfEven_le {q : Rat} {B : Int} (h : q ≤ (B : Rat)) :
    roundHalfEven q ≤ B := by
  have hfB : ⌊q⌋ ≤ B := by
    have := Int.floor_le_floor h
    rwa [Int.floor_intCast] at this
  unfold roundHalfEven
  dsimp only
  split
  · exact hfB
  · rename_i hlt
    push_neg at hlt
    have hstep : ⌊q⌋ + 1 ≤ B := by
      by_contra hcon
      push_neg at hcon
      have heq : ⌊q⌋ = B := by omega
      have hle : q - (⌊q⌋ : Rat) ≤ 0 := by
        rw [heq]
        linarith
      linarith
    split
    · exact hstep
    · split <;> omega

/-- Bounds for the two-decimal rounding. -/
theorem pyRound2_bounds {q : Rat} (h0 : 0 ≤ q) (h1 : q ≤ 100) :
    0 ≤ pyRound2 q ∧ pyRound2 q ≤ 100 := by
  have hlo : 0 ≤ roundHalfEven (q * 100) := roundHalfEven_nonneg (by linarith)
  have hhi : roundHalfEven (q * 100) ≤ (10000 : Int) := by
    apply roundHalfEven_le
    push_cast
    linarith
  constructor
  · unfold pyRound2
    apply div_nonneg _ (by norm_num)
    exact_mod_cast hlo
  · unfold pyRound2
    rw [div_le_iff₀ (by norm_num : (0 : Rat) < 100)]
    calc ((roundHalfEven (q * 100) : Rat)) ≤ ((10000 : Int) : Rat) := by exact_mod_cast hhi
    _ = 100 * 100 := by norm_num

/-- Unfolding the scoring block when neither division raises. -/
theorem score_ok {df : DataFrame} {v : Option Rat} {k : Rat}
    (hv : validity df = .ok v) (hk : consistency df = .ok k) :
    score df = .ok ⟨completeness df, uniqueness df, v, k,
      dqs (completeness df) (uniqueness df) v k⟩ := by
  simp [score, hv, hk]

/-- The validity division in the non-degenerate case. -/
theorem validity_eq {df : DataFrame} (hc : 1 ≤ df.nCols) (hr : 1 ≤ df.nRows) :
    validity df = .ok (some (((df.cols.map colValidCount).sum : Rat)
      / ((df.nCols * df.nRows : Nat) : Rat) * 100)) := by
  unfold validity
  rw [if_neg (by omega), if_neg (by omega)]

/-- The consistency division in the non-degenerate case. -/
theorem consistency_eq {df : DataFrame} (hc : 1 ≤ df.nCols) :
    consistency df = .ok ((consistentColCount df : Rat) / (df.nCols : Rat) * 100) := by
  unfold consistency
  rw [if_neg (by omega)]

/-- The uniqueness division in the non-degenerate case. -/
theorem uniqueness_eq {df : DataFrame} (hr : 1 ≤ df.nRows) :
    uniqueness df = some ((1 - (dupCount df : Rat) / (df.nRows : Rat)) * 100) := by
  unfold uniqueness
  rw [if_neg (by omega)]

theorem map_congr_mem {α β : Type} {l : List α} {f g : α → β}
    (h : ∀ a ∈ l, f a = g a) : l.map f = l.map g := by
  induction l with
  | nil => rfl
  | cons a t ih => simp [h a (by simp), ih (fun x hx => h x (by simp [hx]))]

theorem countP_le_len {α : Type} (p : α → Bool) (l : List α) :
    l.countP p ≤ l.length := by
  induction l with
  | nil => simp
  | cons a t ih =>
      rw [List.countP_cons, List.length_cons]
      split <;> omega

/-- The mean of the per-column missing rates, in closed form, for a frame
with at least one row. -/
theorem completeness_eq {df : DataFrame} (hwf : df.wf = true) (hr : 1 ≤ df.nRows) :
    completeness df = some ((1 -
      (df.cols.map (fun c =>
        (c.cells.countP Cell.isMissing : Rat) / (c.cells.length : Rat))).sum
          / (df.nCols : Rat)) * 100) := by
  have hlen : ∀ c ∈ df.cols, c.cells.length = df.nRows :=
    fun c hc => (DataFrame.wf_spec hwf c hc).1
  have hmap : df.cols.map colMissingRate = df.cols.map (fun c =>
      some ((c.cells.countP Cell.isMissing : Rat) / (c.cells.length : Rat))) := by
    apply map_congr_mem
    intro c hc
    have hne : c.cells.length ≠ 0 := by rw [hlen c hc]; omega
    simp [colMissingRate, hne]
  have hcolne : df.cols ≠ [] := DataFrame.cols_ne_nil hr
  have hfm := filterMap_id_map_some (fun c =>
    ((c.cells.countP Cell.isMissing : Rat) / (c.cells.length : Rat))) df.cols
  rw [completeness, hmap]
  simp only [meanSkipna, hfm, List.length_map]
  rw [if_neg (by simpa using hcolne)]
  simp [DataFrame.nCols]

theorem dedup_length_eq_one_iff {α : Type} [DecidableEq α] (l : List α) :
    l.dedup.length = 1 ↔ l ≠ [] ∧ ∀ x ∈ l, ∀ y ∈ l, x = y := by
  constructor
  · intro h
    obtain ⟨a, ha⟩ := List.length_eq_one.mp h
    refine ⟨?_, ?_⟩
    · intro hnil
      rw [hnil] at ha
      simp at ha
    · intro x hx y hy
      have hx1 : x ∈ l.dedup := List.mem_dedup.mpr hx
      have hy1 : y ∈ l.dedup := List.mem_dedup.mpr hy
      rw [ha, List.mem_singleton] at hx1 hy1
      rw [hx1, hy1]
  · rintro ⟨hne, hall⟩
    rcases hd : l.dedup with _ | ⟨a, t⟩
    · exact absurd ((List.dedup_eq_nil l).mp hd) hne
    · rcases t with _ | ⟨b, t2⟩
      · simp [hd]
      · exfalso
        have nd := List.nodup_dedup l
        rw [hd] at nd
        have hanb : a ∉ b :: t2 := (List.nodup_cons.mp nd).1
        have hal : a ∈ l := List.mem_dedup.mp (by rw [hd]; simp)
        have hbl : b ∈ l := List.mem_dedup.mp (by rw [hd]; simp)
        have hab : a = b := hall a hal b hbl
        exact hanb (by simp [hab])

/-- The nunique test of the source equals: the column is nonempty and all
its cells, the missing ones included, share one runtime type. -/
theorem colTypeNunique_eq_one_iff (c : Column) :
    colTypeNunique c = 1 ↔ c.cells ≠ [] ∧
      ∀ x ∈ c.cells, ∀ y ∈ c.cells,
        cellType c.numeric x = cellType c.numeric y := by
  rw [colTypeNunique, dedup_length_eq_one_iff]
  constructor
  · rintro ⟨hne, hall⟩
    refine ⟨by simpa using hne, ?_⟩
    intro x hx y hy
    exact hall _ (List.mem_map_of_mem _ hx) _ (List.mem_map_of_mem _ hy)
  · rintro ⟨hne, hall⟩
    refine ⟨by simpa using hne, ?_⟩
    intro x hx y hy
    obtain ⟨a, ha, rfl⟩ := List.mem_map.mp hx
    obtain ⟨b, hb, rfl⟩ := List.mem_map.mp hy
    exact hall a ha b hb

theorem completeness_bounds {df : DataFrame} (hwf : df.wf = true) (hr : 1 ≤ df.nRows) :
    ∃ c, completeness df = some c ∧ 0 ≤ c ∧ c ≤ 100 := by
  refine ⟨_, completeness_eq hwf hr, ?_, ?_⟩ <;>
  · have hlen : ∀ col ∈ df.cols, col.cells.length = df.nRows :=
      fun col hc => (DataFrame.wf_spec hwf col hc).1
    set l := df.cols.map (fun c =>
      (c.cells.countP Cell.isMissing : Rat) / (c.cells.length : Rat)) with hl
    have hmem : ∀ x ∈ l, 0 ≤ x ∧ x ≤ 1 := by
      intro x hx
      rw [hl] at hx
      obtain ⟨c, hc, rfl⟩ := List.mem_map.mp hx
      have hlc : c.cells.length = df.nRows := hlen c hc
      have hpos : (0 : Rat) < (c.cells.length : Rat) := by
        have : 1 ≤ c.cells.length := by omega
        exact_mod_cast this
      constructor
      · exact div_nonneg (by positivity) (by positivity)
      · rw [div_le_one hpos]
        exact_mod_cast countP_le_len Cell.isMissing c.cells
    have hsum0 : 0 ≤ l.sum := list_sum_nonneg_rat (fun x hx => (hmem x hx).1)
    have hsum1 : l.sum ≤ (l.length : Rat) := list_sum_le_length_rat (fun x hx => (hmem x hx).2)
    have hlenl : l.length = df.nCols := by rw [hl, List.length_map]; rfl
    have hcols : 1 ≤ df.nCols := by
      have := DataFrame.cols_ne_nil hr
      have : df.cols.length ≠ 0 := fun h => this (List.length_eq_zero.mp h)
      rw [DataFrame.nCols]
      omega
    have hcpos : (0 : Rat) < (df.nCols : Rat) := by exact_mod_cast hcols
    have hm0 : 0 ≤ l.sum / (df.nCols : Rat) := div_nonneg hsum0 (le_of_lt hcpos)
    have hm1 : l.sum / (df.nCols : Rat) ≤ 1 := by
      rw [div_le_one hcpos, ← hlenl]
      exact hsum1
    nlinarith [hm0, hm1]

theorem uniqueness_bounds {df : DataFrame} (hr : 1 ≤ df.nRows) :
    ∃ u, uniqueness df = some u ∧ 0 ≤ u ∧ u ≤ 100 := by
  refine ⟨_, uniqueness_eq hr, ?_, ?_⟩ <;>
  · have hd : dupCount df ≤ df.nRows := by
      have h1 := countP_le_len (fun i =>
        (List.range i).any (fun j => decide (df.row j = df.row i))) (List.range df.nRows)
      rw [List.length_range] at h1
      exact h1
    have hpos : (0 : Rat) < (df.nRows : Rat) := by exact_mod_cast hr
    have h1 : (dupCount df : Rat) / (df.nRows : Rat) ≤ 1 := by
      rw [div_le_one hpos]
      exact_mod_cast hd
    have h0 : 0 ≤ (dupCount df : Rat) / (df.nRows : Rat) :=
      div_nonneg (by positivity) (le_of_lt hpos)
    nlinarith [h0, h1]

theorem colValidCount_le {c : Column} : colValidCount c ≤ c.cells.length := by
  rw [colValidCount]
  split <;> exact countP_le_len _ _

theorem validity_bounds {df : DataFrame} (hwf : df.wf = true)
    (hc : 1 ≤ df.nCols) (hr : 1 ≤ df.nRows) :
    ∃ v, validity df = .ok (some v) ∧ 0 ≤ v ∧ v ≤ 100 := by
  refine ⟨_, validity_eq hc hr, ?_, ?_⟩ <;>
  · have hlen : ∀ col ∈ df.cols, col.cells.length = df.nRows :=
      fun col hcm => (DataFrame.wf_spec hwf col hcm).1
    have hs : (df.cols.map colValidCount).sum ≤ df.nCols * df.nRows := by
      calc (df.cols.map colValidCount).sum
          ≤ (df.cols.map (fun c => c.cells.length)).sum :=
            sum_map_le_sum_map (fun c _ => colValidCount_le)
        _ = df.cols.length * df.nRows := sum_map_len_eq hlen
        _ = df.nCols * df.nRows := rfl
    have hpos : (0 : Rat) < ((df.nCols * df.nRows : Nat) : Rat) := by
      have : 1 ≤ df.nCols * df.nRows := Nat.one_le_iff_ne_zero.mpr (by positivity)
      exact_mod_cast this
    have h1 : ((df.cols.map colValidCount).sum : Rat)
        / ((df.nCols * df.nRows : Nat) : Rat) ≤ 1 := by
      rw [div_le_one hpos]
      exact_mod_cast hs
    have h0 : 0 ≤ ((df.cols.map colValidCount).sum : Rat)
        / ((df.nCols * df.nRows : Nat) : Rat) :=
      div_nonneg (by positivity) (le_of_lt hpos)
    nlinarith [h0, h1]

theorem consistency_bounds {df : DataFrame} (hc : 1 ≤ df.nCols) :
    ∃ k, consistency df = .ok k ∧ 0 ≤ k ∧ k ≤ 100 := by
  refine ⟨_, consistency_eq hc, ?_, ?_⟩ <;>
  · have hs : consistentColCount df ≤ df.nCols := by
      have := countP_le_len (fun c => colTypeNunique c == 1) df.cols
      exact this
    have hpos : (0 : Rat) < (df.nCols : Rat) := by exact_mod_cast hc
    have h1 : (consistentColCount df : Rat) / (df.nCols : Rat) ≤ 1 := by
      rw [div_le_one hpos]
      exact_mod_cast hs
    have h0 : 0 ≤ (consistentColCount df : Rat) / (df.nCols : Rat) :=
      div_nonneg (by positivity) (le_of_lt hpos)
    nlinarith [h0, h1]

theorem bool_eq_decide {b : Bool} {p : Prop} [Decidable p] (h : b = true ↔ p) :
    b = decide p := by
  rcases b with _ | _
  · by_cases hp : p
    · exact absurd (h.mpr hp) (by simp)
    · simp [hp]
  · simp [h.mp rfl]

/-- Claim C1: for every well-formed dataset with at least one column and at
least one row, the composite equals the two-decimal rounding of
0.30 * completeness + 0.25 * validity + 0.25 * uniqueness + 0.20 * consistency,
the four operands being the dimension scores the engine computed for that
dataset. -/
theorem claim1_composite_formula (df : DataFrame) (hwf : df.wf = true)
    (hcn : 1 ≤ df.nCols) (hr : 1 ≤ df.nRows) :
    ∃ r, score df = .ok r ∧ ∃ c u v,
      r.completeness = some c ∧ r.uniqueness = some u ∧ r.validity = some v ∧
      r.dqs = some (pyRound2 (3/10 * c + 1/4 * v + 1/4 * u + 1/5 * r.consistency)) := by
  obtain ⟨c, hcc, -, -⟩ := completeness_bounds hwf hr
  obtain ⟨u, huu, -, -⟩ := uniqueness_bounds hr
  obtain ⟨v, hvv, -, -⟩ := validity_bounds hwf hcn hr
  obtain ⟨k, hkk, -, -⟩ := consistency_bounds hcn
  refine ⟨_, score_ok hvv hkk, c, u, v, hcc, huu, rfl, ?_⟩
  show dqs (completeness df) (uniqueness df) (some v) k = _
  rw [hcc, huu]
  simp [dqs]

/-- Witness for C1 at a concrete two-column frame. -/
theorem claim1_composite_formula_witness :
    (dfSmall.wf = true ∧ 1 ≤ dfSmall.nCols ∧ 1 ≤ dfSmall.nRows) ∧
    (∃ r, score dfSmall = .ok r ∧ ∃ c u v,
      r.completeness = some c ∧ r.uniqueness = some u ∧ r.validity = some v ∧
      r.dqs = some (pyRound2 (3/10 * c + 1/4 * v + 1/4 * u + 1/5 * r.consistency))) :=
  ⟨⟨by decide, by decide, by decide⟩,
    claim1_composite_formula dfSmall (by decide) (by decide) (by decide)⟩

/-- Claim C2 counterexample: the zero-row one-column frame is well formed,
yet the engine computes NaN (modelled as `none`) for completeness,
uniqueness and validity, so the outputs are not numbers in the range zero
to one hundred. -/
theorem claim2_range_counterexample :
    dfZeroRows.wf = true ∧
    score dfZeroRows = .ok ⟨none, none, none, 0, none⟩ := by
  constructor
  · decide
  · norm_num [score, validity, consistency, completeness, uniqueness, dqs,
      meanSkipna, colMissingRate, dfZeroRows, DataFrame.nCols, DataFrame.nRows]
    decide

/-- Claim C2 amended: for every well-formed dataset with at least one column
and at least one row, each of the five outputs is a number in the closed
interval from zero to one hundred. -/
theorem claim2_range_amended (df : DataFrame) (hwf : df.wf = true)
    (hcn : 1 ≤ df.nCols) (hr : 1 ≤ df.nRows) :
    ∃ r, score df = .ok r ∧ ∃ c u v d,
      r.completeness = some c ∧ r.uniqueness = some u ∧
      r.validity = some v ∧ r.dqs = some d ∧
      0 ≤ c ∧ c ≤ 100 ∧ 0 ≤ u ∧ u ≤ 100 ∧ 0 ≤ v ∧ v ≤ 100 ∧
      0 ≤ r.consistency ∧ r.consistency ≤ 100 ∧ 0 ≤ d ∧ d ≤ 100 := by
  obtain ⟨c, hcc, hc0, hc1⟩ := completeness_bounds hwf hr
  obtain ⟨u, huu, hu0, hu1⟩ := uniqueness_bounds hr
  obtain ⟨v, hvv, hv0, hv1⟩ := validity_bounds hwf hcn hr
  obtain ⟨k, hkk, hk0, hk1⟩ := consistency_bounds hcn
  have hw0 : 0 ≤ 3/10 * c + 1/4 * v + 1/4 * u + 1/5 * k := by linarith
  have hw1 : 3/10 * c + 1/4 * v + 1/4 * u + 1/5 * k ≤ 100 := by linarith
  obtain ⟨hd0, hd1⟩ := pyRound2_bounds hw0 hw1
  refine ⟨_, score_ok hvv hkk, c, u, v,
    pyRound2 (3/10 * c + 1/4 * v + 1/4 * u + 1/5 * k),
    hcc, huu, rfl, ?_, hc0, hc1, hu0, hu1, hv0, hv1, hk0, hk1, hd0, hd1⟩
  show dqs (completeness df) (uniqueness df) (some v) k = _
  rw [hcc, huu]
  simp [dqs]

/-- Witness for the amended C2 at a concrete two-column frame. -/
theorem claim2_range_amended_witness :
    (dfSmall.wf = true ∧ 1 ≤ dfSmall.nCols ∧ 1 ≤ dfSmall.nRows) ∧
    (∃ r, score dfSmall = .ok r ∧ ∃ c u v d,
      r.completeness = some c ∧ r.uniqueness = some u ∧
      r.validity = some v ∧ r.dqs = some d ∧
      0 ≤ c ∧ c ≤ 100 ∧ 0 ≤ u ∧ u ≤ 100 ∧ 0 ≤ v ∧ v ≤ 100 ∧
      0 ≤ r.consistency ∧ r.consistency ≤ 100 ∧ 0 ≤ d ∧ d ≤ 100) :=
  ⟨⟨by decide, by decide, by decide⟩,
    claim2_range_amended dfSmall (by decide) (by decide) (by decide)⟩

/-- Claim C3: contrary to the claim, the engine never raises
InvalidDatasetError (no such error exists in the code). On a well-formed
zero-row frame it silently produces NaN percentages for completeness,
uniqueness and validity; on the zero-column frame it raises
ZeroDivisionError at the validity division. -/
theorem claim3_degenerate_inputs :
    (dfZeroRows2.wf = true ∧
      score dfZeroRows2 = .ok ⟨none, none, none, 0, none⟩) ∧
    score dfZeroCols = .error PyErr.zeroDivisionError := by
  refine ⟨⟨by decide, ?_⟩, ?_⟩
  · norm_num [score, validity, consistency, completeness, uniqueness, dqs,
      meanSkipna, colMissingRate, dfZeroRows2, DataFrame.nCols, DataFrame.nRows]
    decide
  · norm_num [score, validity, dfZeroCols, DataFrame.nCols]

/-- Claim C9: the scoring computation is a pure function of the frame, so
two invocations on the same unmodified dataset return identical reports and
identical observation sequences. -/
theorem claim9_deterministic (df1 df2 : DataFrame) (h : df1 = df2) :
    score df1 = score df2 ∧
      (score df1).map Report.observations = (score df2).map Report.observations := by
  rw [h]
  exact ⟨rfl, rfl⟩

/-- Witness for C9 at a concrete frame. -/
theorem claim9_deterministic_witness :
    dfSmall = dfSmall ∧
    (score dfSmall = score dfSmall ∧
      (score dfSmall).map Report.observations = (score dfSmall).map Report.observations) :=
  ⟨rfl, claim9_deterministic dfSmall dfSmall rfl⟩

theorem countP_congr_mem {α : Type} {l : List α} {p q : α → Bool}
    (h : ∀ a ∈ l, p a = q a) : l.countP p = l.countP q := by
  induction l with
  | nil => rfl
  | cons a t ih =>
      rw [List.countP_cons, List.countP_cons,
        h a (by simp), ih (fun x hx => h x (by simp [hx]))]

/-- The branch of the loop body, written with the per-cell rule. -/
theorem colValidCount_eq (c : Column) :
    colValidCount c = c.cells.countP (cellValid c.numeric) := by
  rcases c with ⟨b, cells⟩
  rcases b with _ | _ <;> rfl

/-- Claim C4: for every well-formed dataset with at least one row, the
uniqueness score equals (1 - duplicate_row_count / total_row_count) * 100,
a row being a duplicate exactly when its full tuple of cell values in
column order is identical to some earlier row. -/
theorem claim4_uniqueness_formula (df : DataFrame) (hwf : df.wf = true)
    (hr : 1 ≤ df.nRows) :
    uniqueness df = some ((1 -
      ((List.range df.nRows).countP (fun i =>
        decide (∃ j, j < i ∧ df.row j = df.row i)) : Rat)
        / (df.nRows : Rat)) * 100) := by
  have hdup : dupCount df = (List.range df.nRows).countP (fun i =>
      decide (∃ j, j < i ∧ df.row j = df.row i)) := by
    apply countP_congr_mem
    intro i _
    apply bool_eq_decide
    simp only [List.any_eq_true, List.mem_range, decide_eq_true_eq]
  rw [uniqueness_eq hr, hdup]

/-- Witness for C4 at a concrete frame. -/
theorem claim4_uniqueness_formula_witness :
    (dfSmall.wf = true ∧ 1 ≤ dfSmall.nRows) ∧
    uniqueness dfSmall = some ((1 -
      ((List.range dfSmall.nRows).countP (fun i =>
        decide (∃ j, j < i ∧ dfSmall.row j = dfSmall.row i)) : Rat)
        / (dfSmall.nRows : Rat)) * 100) :=
  ⟨⟨by decide, by decide⟩, claim4_uniqueness_formula dfSmall (by decide) (by decide)⟩

/-- Claim C7: for every well-formed dataset with at least one column and at
least one row, completeness equals (1 - mean over columns of the per-column
missing rate) * 100: the per-column rates are formed first, then averaged
across columns. -/
theorem claim7_completeness_formula (df : DataFrame) (hwf : df.wf = true)
    (hcn : 1 ≤ df.nCols) (hr : 1 ≤ df.nRows) :
    completeness df = some ((1 -
      (df.cols.map (fun c =>
        (c.cells.countP Cell.isMissing : Rat) / (c.cells.length : Rat))).sum
          / (df.nCols : Rat)) * 100) :=
  completeness_eq hwf hr

/-- Witness for C7 at a concrete frame. -/
theorem claim7_completeness_formula_witness :
    (dfSmall.wf = true ∧ 1 ≤ dfSmall.nCols ∧ 1 ≤ dfSmall.nRows) ∧
    completeness dfSmall = some ((1 -
      (dfSmall.cols.map (fun c =>
        (c.cells.countP Cell.isMissing : Rat) / (c.cells.length : Rat))).sum
          / (dfSmall.nCols : Rat)) * 100) :=
  ⟨⟨by decide, by decide, by decide⟩,
    claim7_completeness_formula dfSmall (by decide) (by decide) (by decide)⟩

/-- Claim C6: for every well-formed dataset with at least one row and one
column, validity equals valid_cell_count / total_cell_count * 100
accumulated across all columns, a cell of a numeric column being valid
exactly when it compares greater than or equal to zero, and a cell of a
non-numeric column exactly when its rendered string is nonempty. -/
theorem claim6_validity_formula (df : DataFrame) (hwf : df.wf = true)
    (hcn : 1 ≤ df.nCols) (hr : 1 ≤ df.nRows) :
    validity df = .ok (some
      ((((df.cols.map (fun c => c.cells.countP (cellValid c.numeric))).sum : Nat) : Rat)
        / (((df.cols.map (fun c => c.cells.length)).sum : Nat) : Rat) * 100)) := by
  have h1 : df.cols.map colValidCount
      = df.cols.map (fun c => c.cells.countP (cellValid c.numeric)) :=
    map_congr_mem (fun c _ => colValidCount_eq c)
  have h2 : (df.cols.map (fun c => c.cells.length)).sum = df.nCols * df.nRows := by
    rw [sum_map_len_eq (fun c hc => (DataFrame.wf_spec hwf c hc).1)]
    rfl
  rw [validity_eq hcn hr, h1, ← h2]

/-- Witness for C6 at a concrete frame. -/
theorem claim6_validity_formula_witness :
    (dfSmall.wf = true ∧ 1 ≤ dfSmall.nCols ∧ 1 ≤ dfSmall.nRows) ∧
    validity dfSmall = .ok (some
      ((((dfSmall.cols.map (fun c => c.cells.countP (cellValid c.numeric))).sum : Nat) : Rat)
        / (((dfSmall.cols.map (fun c => c.cells.length)).sum : Nat) : Rat) * 100)) :=
  ⟨⟨by decide, by decide, by decide⟩,
    claim6_validity_formula dfSmall (by decide) (by decide) (by decide)⟩

/-- Claim C5 counterexample: the well-formed frame with one text column
holding a string and a missing value. Under the claim, the missing cell is
excluded, every non-missing value is a string, the column is
type-consistent and the score would be 100; the code maps every cell
through its runtime type, NaN being a float, finds two types and scores 0. -/
theorem claim5_consistency_counterexample :
    dfTextNaN.wf = true ∧
    consistency dfTextNaN ≠ .ok (((dfTextNaN.cols.countP specTypeConsistent : Nat) : Rat)
      / (dfTextNaN.nCols : Rat) * 100) := by
  refine ⟨by decide, ?_⟩
  have h1 : consistentColCount dfTextNaN = 0 := rfl
  have h2 : dfTextNaN.cols.countP specTypeConsistent = 1 := rfl
  have h3 : dfTextNaN.nCols = 1 := rfl
  intro heq
  rw [consistency, if_neg (by rw [h3]; omega), h1, h2, h3] at heq
  simp only [Except.ok.injEq] at heq
  norm_num at heq

/-- Claim C5 amended: for every dataset with at least one column, the
consistency score equals (count of type-consistent columns / column
count) * 100, where a column is type-consistent exactly when it is
nonempty and ALL of its cells - missing cells included, classified by
their runtime type, a missing cell being a float NaN - share one runtime
type classification. In particular a text column containing both strings
and missing values is not type-consistent, and a zero-row column is never
type-consistent. -/
theorem claim5_consistency_amended (df : DataFrame) (hcn : 1 ≤ df.nCols) :
    consistency df = .ok (((df.cols.countP (fun c => decide (c.cells ≠ [] ∧
        ∀ x ∈ c.cells, ∀ y ∈ c.cells,
          cellType c.numeric x = cellType c.numeric y)) : Nat) : Rat)
      / (df.nCols : Rat) * 100) := by
  have h : consistentColCount df = df.cols.countP (fun c => decide (c.cells ≠ [] ∧
      ∀ x ∈ c.cells, ∀ y ∈ c.cells,
        cellType c.numeric x = cellType c.numeric y)) := by
    apply countP_congr_mem
    intro c _
    exact bool_eq_decide ((beq_iff_eq).trans (colTypeNunique_eq_one_iff c))
  rw [consistency_eq hcn, h]

/-- Witness for the amended C5 at the string-and-NaN frame. -/
theorem claim5_consistency_amended_witness :
    1 ≤ dfTextNaN.nCols ∧
    consistency dfTextNaN = .ok (((dfTextNaN.cols.countP (fun c => decide (c.cells ≠ [] ∧
        ∀ x ∈ c.cells, ∀ y ∈ c.cells,
          cellType c.numeric x = cellType c.numeric y)) : Nat) : Rat)
      / (dfTextNaN.nCols : Rat) * 100) :=
  ⟨by decide, claim5_consistency_amended dfTextNaN (by decide)⟩

/-- Claim C8: for every well-formed dataset with at least one column and
one row, the emitted observation sequence is exactly the rows of the
threshold table whose conditions hold, in the fixed order completeness,
uniqueness, validity, consistency, composite, with strict less-than for
the four warnings and greater-or-equal for the affirmation. -/
theorem claim8_observations (df : DataFrame) (hwf : df.wf = true)
    (hcn : 1 ≤ df.nCols) (hr : 1 ≤ df.nRows) :
    ∃ r, score df = .ok r ∧ ∃ c u v d,
      r.completeness = some c ∧ r.uniqueness = some u ∧
      r.validity = some v ∧ r.dqs = some d ∧
      r.observations =
        (if c < 80 then ["Missing values detected."] else []) ++
        (if u < 90 then ["Duplicate records reduce uniqueness."] else []) ++
        (if v < 85 then ["Validation rule violations found."] else []) ++
        (if r.consistency < 80 then ["Schema inconsistencies detected."] else []) ++
        (if 80 ≤ d then ["Overall data quality is good."] else []) := by
  obtain ⟨c, hcc, -, -⟩ := completeness_bounds hwf hr
  obtain ⟨u, huu, -, -⟩ := uniqueness_bounds hr
  obtain ⟨v, hvv, -, -⟩ := validity_bounds hwf hcn hr
  obtain ⟨k, hkk, -, -⟩ := consistency_bounds hcn
  have hd : dqs (completeness df) (uniqueness df) (some v) k
      = some (pyRound2 (3/10 * c + 1/4 * v + 1/4 * u + 1/5 * k)) := by
    rw [hcc, huu]
    simp [dqs]
  refine ⟨_, score_ok hvv hkk, c, u, v,
    pyRound2 (3/10 * c + 1/4 * v + 1/4 * u + 1/5 * k), hcc, huu, rfl, hd, ?_⟩
  show Report.observations _ = _
  rw [Report.observations]
  rw [hd, hcc, huu]
  simp [optLtB, optGeB, decide_eq_true_eq]

/-- Witness for C8 at a concrete frame. -/
theorem claim8_observations_witness :
    (dfSmall.wf = true ∧ 1 ≤ dfSmall.nCols ∧ 1 ≤ dfSmall.nRows) ∧
    (∃ r, score dfSmall = .ok r ∧ ∃ c u v d,
      r.completeness = some c ∧ r.uniqueness = some u ∧
      r.validity = some v ∧ r.dqs = some d ∧
      r.observations =
        (if c < 80 then ["Missing values detected."] else []) ++
        (if u < 90 then ["Duplicate records reduce uniqueness."] else []) ++
        (if v < 85 then ["Validation rule violations found."] else []) ++
        (if r.consistency < 80 then ["Schema inconsistencies detected."] else []) ++
        (if 80 ≤ d then ["Overall data quality is good."] else [])) :=
  ⟨⟨by decide, by decide, by decide⟩,
    claim8_observations dfSmall (by decide) (by decide) (by decide)⟩

theorem countP_eq_len {α : Type} {p : α → Bool} {l : List α}
    (h : ∀ a ∈ l, p a = true) : l.countP p = l.length := by
  induction l with
  | nil => rfl
  | cons a t ih =>
      rw [List.countP_cons, h a (by simp),
        ih (fun x hx => h x (by simp [hx])), List.length_cons]
      simp

/-- Claim C10: in the validity computation a missing cell of a numeric
column is counted invalid (NaN fails the comparison with zero) while a
missing cell of a non-numeric column is counted valid (it is coerced to
the nonempty placeholder string nan); consequently, in a well-formed frame
every cell of a non-numeric column is counted valid, however many are
missing. -/
theorem claim10_missing_cell_validity (df : DataFrame) (c : Column)
    (hwf : df.wf = true) (hmem : c ∈ df.cols) (hnum : c.numeric = false) :
    cellValid true Cell.missing = false ∧
    cellValid false Cell.missing = true ∧
    colValidCount c = c.cells.length := by
  refine ⟨rfl, by decide, ?_⟩
  have hcwf : c.wf = true := (DataFrame.wf_spec hwf c hmem).2
  rw [Column.wf, hnum] at hcwf
  simp only [Bool.false_eq_true, if_false, Bool.and_eq_true] at hcwf
  have hall := hcwf.1
  rw [colValidCount, if_neg (by simp [hnum])]
  apply countP_eq_len
  intro x hx
  have htok : Cell.textOk x = true := (List.all_eq_true.mp hall) x hx
  rcases x with n | q | s | _
  · simp [Cell.textOk] at htok
  · simp [Cell.textOk] at htok
  · simpa [Cell.textOk, Cell.pyStr] using htok
  · decide

/-- Witness for C10 at the string-and-NaN frame. -/
theorem claim10_missing_cell_validity_witness :
    (dfTextNaN.wf = true ∧
      Column.mk false [Cell.strVal "a", Cell.missing] ∈ dfTextNaN.cols ∧
      (Column.mk false [Cell.strVal "a", Cell.missing]).numeric = false) ∧
    (cellValid true Cell.missing = false ∧
      cellValid false Cell.missing = true ∧
      colValidCount (Column.mk false [Cell.strVal "a", Cell.missing]) =
        (Column.mk false [Cell.strVal "a", Cell.missing]).cells.length) :=
  ⟨⟨by decide, by decide, by decide⟩,
    claim10_missing_cell_validity dfTextNaN _ (by decide) (by decide) (by decide)⟩
